import Mathlib

/-!
Verification of the NeuroConscious agent-cognition core.

This file gives a shallow embedding, in Lean 4, of the parts of the
repository that the checked properties talk about:

* `ReplayBuffer` (src/core/learning/dqn_learner.py, class ReplayBuffer):
  a `collections.deque` with `maxlen = capacity`, modelled as a list with
  left-eviction on overflow, plus the `sample` method.  The randomness of
  `random.sample` is modelled by an index oracle `sel`: the Python library
  guarantees the drawn indices are distinct and in range, which appear here
  as hypotheses on `sel`.
* `DQNLearner.update` (same file): replay push, epsilon decay, the
  "buffer shorter than a batch" early return, the gradient step (the torch
  loss/optimizer step is an abstract function `gradStep` of the policy
  weights, the target weights and the sampled batch, over an abstract
  weight type `W`), the update counter and the periodic hard sync of the
  target network.
* `DecisionMaker.decide_final_action` (src/core/decision/decision_maker.py):
  the three critical-need overrides at the top of the decision hierarchy.
  Everything after them (source lines 82-383: procedural override, DQN
  default, goal pursuit, semantic/working memory, weather, curiosity,
  social) is abstracted into a continuation `cont`, because the checked
  properties quantify over every behaviour of that suffix.
* The consciousness machine (src/agent/base_agent.py `Agent.think`,
  src/core/consciousness/asleep_state.py `AsleepState.act`,
  src/core/consciousness/awake_state.py `AwakeState.think`).
* `InternalState.update` (src/core/state.py) and
  `BasicMoodStrategy.calculate_mood` (src/core/mood/basic_mood.py).
* `ProceduralMemory` (src/core/memory/procedural_memory.py).

Python floats are modelled as rationals (`ℚ`), action names as `String`.
-/

/-- Clamp a rational to the interval [0,1]; `InternalState._clamp_value`
in src/core/state.py (`max(0.0, min(1.0, value))`). -/
def clamp01 (x : ℚ) : ℚ := max 0 (min 1 x)

/-! ## ReplayBuffer (src/core/learning/dqn_learner.py, lines 51-96) -/

/-- `ReplayBuffer.push`: `deque(maxlen=capacity).append(x)`.  The deque
keeps the most recent `capacity` elements, silently discarding from the
left (the oldest end) when it overflows. -/
def ReplayBuffer.push {α : Type} (capacity : ℕ) (buffer : List α) (x : α) : List α :=
  let b := buffer ++ [x]
  b.drop (b.length - capacity)

/-- `ReplayBuffer.sample`: returns `[]` when the buffer holds fewer than
`batchSize` elements (line 90-91), otherwise `random.sample(buffer,
batchSize)`.  The random draw is modelled by the index oracle `sel`; the
stdlib contract of `random.sample` (distinct in-range indices of length
`batchSize`, uniformly among such draws) appears as hypotheses where this
definition is used. -/
def ReplayBuffer.sample {α : Type} (buffer : List α) (batchSize : ℕ) (sel : List ℕ) : List α :=
  if buffer.length < batchSize then []
  else sel.filterMap (fun i => buffer[i]?)

/-! ## DQNLearner (src/core/learning/dqn_learner.py, lines 99-316) -/

/-- One experience pushed by `DQNLearner.update`: the (hunger, fatigue)
state tensor, the action index, the reward, the next state tensor, and the
`done` flag (always `False` in this code base). -/
structure Transition where
  prevState : ℚ × ℚ
  actionIdx : ℕ
  reward : ℚ
  nextState : ℚ × ℚ
  done : Bool
deriving DecidableEq

/-- The constructor parameters of `DQNLearner` that `update` reads. -/
structure DQNConfig where
  epsilonMin : ℚ
  epsilonDecayRate : ℚ
  replayBufferCapacity : ℕ
  batchSize : ℕ
  targetUpdateFrequency : ℕ

/-- The mutable state of a `DQNLearner` that `update` touches, over an
abstract type `W` of network weight assignments (`state_dict` contents).
`policyNet` and `targetNet` are the two weight stores; `__init__` creates
them equal (line 140). -/
structure DQNState (W : Type) where
  policyNet : W
  targetNet : W
  epsilon : ℚ
  buffer : List Transition
  updateCount : ℕ

/-- `DQNLearner.update` (lines 203-279): push the transition, decay
epsilon, return early when the buffer is shorter than a batch, otherwise
sample a batch, take one gradient step on the policy network (abstracted
as `gradStep`, a function of the policy weights, the target weights and
the batch — the target network enters only through the Bellman targets and
is never written by the step), increment the counter, and hard-sync the
target network whenever the incremented counter is divisible by
`target_update_frequency`. -/
def DQNLearner.update {W : Type} (cfg : DQNConfig) (gradStep : W → W → List Transition → W)
    (sel : List ℕ) (s : DQNState W) (t : Transition) : DQNState W :=
  let buffer := ReplayBuffer.push cfg.replayBufferCapacity s.buffer t
  let epsilon := max cfg.epsilonMin (s.epsilon * cfg.epsilonDecayRate)
  if buffer.length < cfg.batchSize then
    { s with buffer := buffer, epsilon := epsilon }
  else
    let experiences := ReplayBuffer.sample buffer cfg.batchSize sel
    let policyNet := gradStep s.policyNet s.targetNet experiences
    let updateCount := s.updateCount + 1
    if updateCount % cfg.targetUpdateFrequency = 0 then
      { policyNet := policyNet, targetNet := policyNet, epsilon := epsilon,
        buffer := buffer, updateCount := updateCount }
    else
      { policyNet := policyNet, targetNet := s.targetNet, epsilon := epsilon,
        buffer := buffer, updateCount := updateCount }

/-! ## DecisionMaker (src/core/decision/decision_maker.py, lines 48-383) -/

/-- The fields of `agent.internal_state` that the critical-override
prefix of `decide_final_action` reads (the code reads `.hunger`,
`.thirst` and `.fatigue`). -/
structure NeedsView where
  hunger : ℚ
  thirst : ℚ
  fatigue : ℚ

/-- `DecisionMaker.decide_final_action` (lines 66-80 literally; lines
82-383 — procedural-memory override, DQN suggestion, goal system,
semantic/working memory, weather, curiosity and social modifiers — are
abstracted as the continuation `cont`, applied to the decision mode,
because the verified properties hold for every behaviour of that
suffix). The three critical-need overrides return immediately, in the
fixed source order hunger, thirst, fatigue. -/
def DecisionMaker.decide_final_action (st : NeedsView) (decisionMode : String)
    (cont : String → String) : String :=
  if st.hunger > 85/100 then "seek_food"
  else if st.thirst > 85/100 then "drink_water"
  else if st.fatigue > 85/100 then "rest"
  else cont decisionMode

/-! ## Consciousness machine (src/agent/base_agent.py, src/core/consciousness/) -/

/-- The three consciousness states instantiated in `Agent.__init__`. -/
inductive CMode where
  | awake
  | asleep
  | focused
deriving DecidableEq

/-- The agent fields read or written by `Agent.think`'s transition chain
(base_agent.py lines 660-680) and by `AsleepState.act`
(asleep_state.py lines 76-101). `hasUncompletedReachLocationGoal` stands
for `any(g.type == "reach_location" and not g.completed for g in
active_goals)`. -/
structure AgentC where
  hunger : ℚ
  fatigue : ℚ
  thirst : ℚ
  mode : CMode
  attentionFocus : Option String
  hasUncompletedReachLocationGoal : Bool
  lastActionReward : ℚ

/-- The state-transition prefix of `Agent.think` (base_agent.py lines
660-680): an if/elif chain evaluated once per tick before delegating to
the active state's `think`.  `transition_to_state` runs the exit hook of
the old state and the enter hook of the new one; the only enter hook with
a state effect is `AsleepState.enter`, which clears the attention focus. -/
def Agent.think_transition (a : AgentC) : AgentC :=
  if a.fatigue > 9/10 ∧ a.mode ≠ CMode.asleep then
    { a with mode := CMode.asleep, attentionFocus := none }
  else if a.fatigue < 2/10 ∧ a.mode = CMode.asleep then
    { a with mode := CMode.awake }
  else if a.hunger > 8/10 ∧ a.mode ≠ CMode.focused then
    { a with attentionFocus := some "food", mode := CMode.focused }
  else if a.thirst > 8/10 ∧ a.mode ≠ CMode.focused then
    { a with attentionFocus := some "water", mode := CMode.focused }
  else if a.hunger < 3/10 ∧ a.mode = CMode.focused ∧ a.attentionFocus = some "food" then
    { a with mode := CMode.awake }
  else if a.thirst < 2/10 ∧ a.mode = CMode.focused ∧ a.attentionFocus = some "water" then
    { a with mode := CMode.awake }
  else if a.mode = CMode.focused ∧ a.attentionFocus = some "location_target"
      ∧ ¬ a.hasUncompletedReachLocationGoal then
    { a with mode := CMode.awake }
  else a

/-- `AsleepState.act` (asleep_state.py lines 76-101): the requested action
is not executed; only a rest effect is applied (fatigue minus 0.7 for
"rest", minus 0.2 for any other action, floored at 0), the reward is set,
and then `internal_state.update(1.0)` runs (hunger plus 0.01, fatigue plus
0.005, both clamped to [0,1] — src/core/state.py lines 93-95). No DQN
update, no episodic write, no action-specific effect. -/
def AsleepState.act (a : AgentC) (action : String) : AgentC :=
  let fatigueAfterRest :=
    if action = "rest" then max 0 (a.fatigue - 7/10) else max 0 (a.fatigue - 2/10)
  let reward : ℚ := if action = "rest" then 6/10 else 1/10
  { a with
    fatigue := clamp01 (fatigueAfterRest + 5/1000)
    hunger := clamp01 (a.hunger + 1/100)
    lastActionReward := reward }

/-- `AwakeState.think` (awake_state.py line 65) delegates to
`Agent._think_default(decision_mode="deliberative")`: the decision mode it
requests from the arbiter.  The agent state is a parameter, recording that
the literal `"deliberative"` is passed for every agent. -/
def AwakeState.requestedDecisionMode (_a : AgentC) : String := "deliberative"

/-- `FocusedState.think` (focused_state.py line 82) likewise delegates to
`Agent._think_default(decision_mode="deliberative")` for every agent. -/
def FocusedState.requestedDecisionMode (_a : AgentC) : String := "deliberative"

/-! ## InternalState and mood (src/core/state.py, src/core/mood/basic_mood.py) -/

/-- `InternalState` (src/core/state.py): the physiological fields it
actually stores.  It has no thirst field.  Its `_update_mood` cannot be
embedded against `BasicMoodStrategy`: state.py line 67 calls
`calculate_mood(self._hunger, self._fatigue)` with two arguments while the
strategy interface (mood/base.py line 36, basic_mood.py line 37) requires
three, `(hunger, fatigue, thirst)`. -/
structure InternalState where
  hunger : ℚ
  fatigue : ℚ
deriving DecidableEq

/-- `InternalState.update` (src/core/state.py lines 83-98): hunger grows
by 0.01 per `delta_time` unit and fatigue by 0.005, each clamped to [0,1]
by the property setters.  No other stored need is touched. -/
def InternalState.update (s : InternalState) (deltaTime : ℚ) : InternalState :=
  { hunger := clamp01 (s.hunger + 1/100 * deltaTime)
    fatigue := clamp01 (s.fatigue + 5/1000 * deltaTime) }

/-- `BasicMoodStrategy.calculate_mood` (src/core/mood/basic_mood.py lines
37-80): weighted combination of the inverted needs, rescaled from [0,1] to
[-1,1]. -/
def BasicMoodStrategy.calculate_mood (hunger fatigue thirst : ℚ) : ℚ :=
  let invertedHunger := 1 - hunger
  let invertedFatigue := 1 - fatigue
  let invertedThirst := 1 - thirst
  let rawMood := invertedHunger * (4/10) + invertedFatigue * (3/10) + invertedThirst * (3/10)
  rawMood * 2 - 1

/-! ## ProceduralMemory (src/core/memory/procedural_memory.py) -/

/-- One stored procedure record (procedural_memory.py lines 67-77).
`condition` is the dict `{"type": ..., "threshold": ...}`;
`suggestedAction` models the `"suggested_action"` key, absent (`none`)
until `get_triggered_procedure` writes it. -/
structure Procedure where
  id : String
  name : String
  conditionType : String
  conditionThreshold : ℚ
  actionSequence : List String
  priority : ℚ
  lastTriggeredStep : Int
  successCount : ℕ
  failureCount : ℕ
  conditionDescription : String
  suggestedAction : Option String
deriving DecidableEq

/-- The `ProceduralMemory` store: an insertion-ordered dict of procedures
(modelled as a list) plus the id counter. -/
structure ProceduralMemory where
  capacity : ℕ
  procedures : List Procedure
  nextId : ℕ

/-- The agent fields `get_triggered_procedure` reads when evaluating
conditions (procedural_memory.py lines 100-114). -/
structure ProcView where
  hunger : ℚ
  fatigue : ℚ
  foodInSight : Bool
  obstacleInSight : Bool
  hasUncompletedReachLocationGoal : Bool
  currentTimeStep : Int

/-- Condition evaluation of `get_triggered_procedure` (lines 100-115):
unknown condition types never match. -/
def Procedure.conditionMet (v : ProcView) (p : Procedure) : Bool :=
  if p.conditionType = "hunger_high" then decide (v.hunger ≥ p.conditionThreshold)
  else if p.conditionType = "fatigue_high" then decide (v.fatigue ≥ p.conditionThreshold)
  else if p.conditionType = "food_in_sight" then v.foodInSight && decide (v.hunger > 5/10)
  else if p.conditionType = "obstacle_blocking_path" then
    v.obstacleInSight && v.hasUncompletedReachLocationGoal
  else false

/-- Dynamic priority (lines 118-123): the stored `priority` boosted or
penalised from the outcome counts, computed into a local, never written
back. -/
def Procedure.dynamicPriority (p : Procedure) : ℚ :=
  if p.successCount > p.failureCount ∧ p.successCount > 0 then min 1 (p.priority * (11/10))
  else if p.failureCount > p.successCount ∧ p.failureCount > 0 then max 0 (p.priority * (8/10))
  else p.priority

/-- The selection loop of `get_triggered_procedure` (lines 97-127):
iterate in insertion order, keep the index of the strictly best
dynamic-priority procedure among those whose condition is met, starting
from `highest = -1`. -/
def ProceduralMemory.bestLoop (v : ProcView) :
    List Procedure → ℕ → ℚ → Option ℕ → Option ℕ
  | [], _, _, best => best
  | p :: rest, idx, highest, best =>
    if p.conditionMet v ∧ p.dynamicPriority > highest then
      ProceduralMemory.bestLoop v rest (idx + 1) p.dynamicPriority (some idx)
    else
      ProceduralMemory.bestLoop v rest (idx + 1) highest best

/-- `ProceduralMemory.get_triggered_procedure` (lines 82-136): select the
best triggered procedure, then mutate the stored record in place, setting
its `last_triggered_step` to the current step and its `suggested_action`
to the first entry of its action sequence (Python indexes
`action_sequence[0]`; the `Option` head models it), and return it. -/
def ProceduralMemory.get_triggered_procedure (m : ProceduralMemory) (v : ProcView) :
    Option Procedure × ProceduralMemory :=
  match ProceduralMemory.bestLoop v m.procedures 0 (-1) none with
  | none => (none, m)
  | some j =>
    match m.procedures[j]? with
    | none => (none, m)
    | some p =>
      let p' := { p with
        lastTriggeredStep := v.currentTimeStep
        suggestedAction := p.actionSequence.head? }
      (some p', { m with procedures := m.procedures.set j p' })

/-- `ProceduralMemory.update_procedure_outcome` (lines 138-151): increment
the success or failure count of the procedure with the given id, when
present; every other field and every other procedure is untouched. -/
def ProceduralMemory.update_procedure_outcome (m : ProceduralMemory)
    (procId : String) (success : Bool) : ProceduralMemory :=
  { m with procedures := m.procedures.map (fun p =>
      if p.id = procId then
        if success then { p with successCount := p.successCount + 1 }
        else { p with failureCount := p.failureCount + 1 }
      else p) }

/-! ## Generic facts used by several theorems -/

/-- `clamp01` never exceeds a nonnegative argument. -/
theorem clamp01_le_of_nonneg {x : ℚ} (h : 0 ≤ x) : clamp01 x ≤ x :=
  max_le h (min_le_right 1 x)

/-- In both branches of `DQNLearner.update`, epsilon becomes
`max epsilon_min (epsilon * epsilon_decay_rate)` (dqn_learner.py line 230). -/
theorem DQNLearner.update_epsilon {W : Type} (cfg : DQNConfig)
    (gradStep : W → W → List Transition → W) (sel : List ℕ) (s : DQNState W) (t : Transition) :
    (DQNLearner.update cfg gradStep sel s t).epsilon =
      max cfg.epsilonMin (s.epsilon * cfg.epsilonDecayRate) := by
  simp only [DQNLearner.update]
  split
  · rfl
  · split <;> rfl

/-- A shared concrete transition used to instantiate witnesses. -/
def sampleTransition : Transition :=
  { prevState := (1/2, 1/2), actionIdx := 0, reward := 0, nextState := (1/2, 1/2), done := false }

/-- A shared concrete learner configuration (the constructor defaults of
`DQNLearner`). -/
def defaultConfig : DQNConfig :=
  { epsilonMin := 1/100, epsilonDecayRate := 995/1000, replayBufferCapacity := 10000,
    batchSize := 64, targetUpdateFrequency := 100 }

/-- A shared concrete initial learner state over `W := ℕ` (weights
abstracted to a single number), as produced by `DQNLearner.__init__`:
target equals policy, empty buffer, zero counter. -/
def initialDQNState : DQNState ℕ :=
  { policyNet := 0, targetNet := 0, epsilon := 1, buffer := [], updateCount := 0 }

/-- A gradient step that leaves the weights unchanged. -/
def idGradStep : ℕ → ℕ → List Transition → ℕ := fun p _ _ => p

/-- A gradient step that visibly changes the policy weights. -/
def bumpGradStep : ℕ → ℕ → List Transition → ℕ := fun p _ _ => p + 1

/-! ## C2 — epsilon decay -/

/-- C2 (amended): with `0 ≤ epsilon_decay_rate ≤ 1`, `0 ≤ epsilon_min` and
`epsilon_min ≤ epsilon`, every `DQNLearner.update` call leaves epsilon no
larger than before and never below `epsilon_min`. -/
theorem dqn_epsilon_monotone_and_floored {W : Type} (cfg : DQNConfig)
    (gradStep : W → W → List Transition → W) (sel : List ℕ) (s : DQNState W) (t : Transition)
    (_hd0 : 0 ≤ cfg.epsilonDecayRate) (hd1 : cfg.epsilonDecayRate ≤ 1)
    (hm0 : 0 ≤ cfg.epsilonMin) (hme : cfg.epsilonMin ≤ s.epsilon) :
    (DQNLearner.update cfg gradStep sel s t).epsilon ≤ s.epsilon ∧
    cfg.epsilonMin ≤ (DQNLearner.update cfg gradStep sel s t).epsilon := by
  rw [DQNLearner.update_epsilon]
  refine ⟨max_le hme ?_, le_max_left _ _⟩
  have h0e : 0 ≤ s.epsilon := le_trans hm0 hme
  calc s.epsilon * cfg.epsilonDecayRate ≤ s.epsilon * 1 :=
        mul_le_mul_of_nonneg_left hd1 h0e
    _ = s.epsilon := mul_one _

/-- Witness for C2 at the constructor defaults. -/
theorem dqn_epsilon_monotone_and_floored_witness :
    (DQNLearner.update defaultConfig idGradStep [] initialDQNState sampleTransition).epsilon
        ≤ initialDQNState.epsilon ∧
    defaultConfig.epsilonMin ≤
      (DQNLearner.update defaultConfig idGradStep [] initialDQNState sampleTransition).epsilon :=
  dqn_epsilon_monotone_and_floored defaultConfig idGradStep [] initialDQNState sampleTransition
    (by norm_num [defaultConfig]) (by norm_num [defaultConfig])
    (by norm_num [defaultConfig]) (by norm_num [defaultConfig, initialDQNState])

/-- A configuration with a negative exploration floor, accepted by the
`DQNLearner` constructor. -/
def negativeEpsConfig : DQNConfig :=
  { epsilonMin := -2, epsilonDecayRate := 1/2, replayBufferCapacity := 10000,
    batchSize := 64, targetUpdateFrequency := 100 }

/-- A learner state with a negative epsilon, above the configured floor. -/
def negativeEpsState : DQNState ℕ :=
  { policyNet := 0, targetNet := 0, epsilon := -1, buffer := [], updateCount := 0 }

/-- C2 counterexample: under exactly the assumptions of the claim
(`0 ≤ epsilon_decay_rate ≤ 1` and `epsilon_min ≤ epsilon`), an `update`
call can strictly increase epsilon: with `epsilon = -1`,
`epsilon_min = -2`, `decay = 1/2`, the new epsilon is `-1/2 > -1`. -/
theorem dqn_epsilon_increase_counterexample :
    0 ≤ negativeEpsConfig.epsilonDecayRate ∧ negativeEpsConfig.epsilonDecayRate ≤ 1 ∧
    negativeEpsConfig.epsilonMin ≤ negativeEpsState.epsilon ∧
    negativeEpsState.epsilon <
      (DQNLearner.update negativeEpsConfig idGradStep [] negativeEpsState sampleTransition).epsilon := by
  refine ⟨by norm_num [negativeEpsConfig], by norm_num [negativeEpsConfig],
    by norm_num [negativeEpsConfig, negativeEpsState], ?_⟩
  rw [DQNLearner.update_epsilon]
  norm_num [negativeEpsConfig, negativeEpsState]

/-! ## C4 — short-buffer early return -/

/-- C4: when the replay buffer (after recording the new transition, which
is when dqn_learner.py line 233 checks it) holds fewer transitions than
`batch_size`, `update` only records the transition and decays epsilon: no
gradient step runs and the policy network, target network and update
counter are unchanged; the call returns normally. -/
theorem dqn_update_short_buffer_no_train {W : Type} (cfg : DQNConfig)
    (gradStep : W → W → List Transition → W) (sel : List ℕ) (s : DQNState W) (t : Transition)
    (h : (ReplayBuffer.push cfg.replayBufferCapacity s.buffer t).length < cfg.batchSize) :
    DQNLearner.update cfg gradStep sel s t =
      { s with buffer := ReplayBuffer.push cfg.replayBufferCapacity s.buffer t,
               epsilon := max cfg.epsilonMin (s.epsilon * cfg.epsilonDecayRate) } := by
  simp only [DQNLearner.update]
  rw [if_pos h]

/-- Witness for C4: the very first `update` call at the constructor
defaults (one stored transition, batch size 64). -/
theorem dqn_update_short_buffer_no_train_witness :
    DQNLearner.update defaultConfig idGradStep [] initialDQNState sampleTransition =
      { initialDQNState with
          buffer := ReplayBuffer.push defaultConfig.replayBufferCapacity
            initialDQNState.buffer sampleTransition,
          epsilon := max defaultConfig.epsilonMin
            (initialDQNState.epsilon * defaultConfig.epsilonDecayRate) } :=
  dqn_update_short_buffer_no_train defaultConfig idGradStep [] initialDQNState sampleTransition
    (by decide)

/-! ## C1 — target-network sync -/

/-- C1 (amended): a call of `DQNLearner.update` whose post-push buffer is
shorter than a batch changes neither network nor the counter; a call that
trains increments the counter, and hard-syncs the target network to the
freshly trained policy network exactly when the incremented counter is
divisible by `target_update_frequency`, leaving the target network
untouched otherwise.  The target network is thus only ever written by the
sync, never by the gradient step. -/
theorem dqn_target_sync_characterization {W : Type} (cfg : DQNConfig)
    (gradStep : W → W → List Transition → W) (sel : List ℕ) (s : DQNState W) (t : Transition) :
    ((ReplayBuffer.push cfg.replayBufferCapacity s.buffer t).length < cfg.batchSize →
      (DQNLearner.update cfg gradStep sel s t).policyNet = s.policyNet ∧
      (DQNLearner.update cfg gradStep sel s t).targetNet = s.targetNet ∧
      (DQNLearner.update cfg gradStep sel s t).updateCount = s.updateCount) ∧
    (¬ (ReplayBuffer.push cfg.replayBufferCapacity s.buffer t).length < cfg.batchSize →
      (DQNLearner.update cfg gradStep sel s t).updateCount = s.updateCount + 1 ∧
      ((s.updateCount + 1) % cfg.targetUpdateFrequency = 0 →
        (DQNLearner.update cfg gradStep sel s t).targetNet =
          (DQNLearner.update cfg gradStep sel s t).policyNet) ∧
      ((s.updateCount + 1) % cfg.targetUpdateFrequency ≠ 0 →
        (DQNLearner.update cfg gradStep sel s t).targetNet = s.targetNet)) := by
  constructor
  · intro h
    simp [DQNLearner.update, if_pos h]
  · intro h
    simp only [DQNLearner.update, if_neg h]
    refine ⟨?_, ?_, ?_⟩
    · split <;> rfl
    · intro hsync
      rw [if_pos hsync]
    · intro hsync
      rw [if_neg hsync]

/-- Witness for C1: both the silent branch (first call, batch 64) and a
syncing training step (batch 1, frequency 1). -/
theorem dqn_target_sync_characterization_witness :
    ((DQNLearner.update defaultConfig idGradStep [] initialDQNState sampleTransition).policyNet
        = initialDQNState.policyNet ∧
      (DQNLearner.update defaultConfig idGradStep [] initialDQNState sampleTransition).targetNet
        = initialDQNState.targetNet ∧
      (DQNLearner.update defaultConfig idGradStep [] initialDQNState sampleTransition).updateCount
        = initialDQNState.updateCount) ∧
    ((DQNLearner.update { defaultConfig with batchSize := 1, targetUpdateFrequency := 1 }
        bumpGradStep [0] initialDQNState sampleTransition).targetNet =
      (DQNLearner.update { defaultConfig with batchSize := 1, targetUpdateFrequency := 1 }
        bumpGradStep [0] initialDQNState sampleTransition).policyNet) :=
  ⟨(dqn_target_sync_characterization defaultConfig idGradStep [] initialDQNState
      sampleTransition).1 (by decide),
   ((dqn_target_sync_characterization { defaultConfig with batchSize := 1, targetUpdateFrequency := 1 }
      bumpGradStep [0] initialDQNState sampleTransition).2 (by decide)).2.1 (by decide)⟩

/-- The configuration of the C1 counterexample run: batch size 2, target
update frequency N = 2. -/
def syncLagConfig : DQNConfig :=
  { epsilonMin := 1/100, epsilonDecayRate := 1/2, replayBufferCapacity := 10,
    batchSize := 2, targetUpdateFrequency := 2 }

/-- C1 counterexample: a run of exactly N = 2 `update` calls (from the
freshly initialised state, where target and policy weights are equal)
after which the target weights differ from the policy weights: the first
call finds the buffer shorter than a batch and does not advance the
counter, so the second call is only the first training step and does not
sync. This refutes "the target network's weights equal the policy
network's weights immediately after every Nth call to update". -/
theorem dqn_target_sync_counterexample :
    syncLagConfig.targetUpdateFrequency = 2 ∧
    initialDQNState.targetNet = initialDQNState.policyNet ∧
    (DQNLearner.update syncLagConfig bumpGradStep [0, 1]
        (DQNLearner.update syncLagConfig bumpGradStep [] initialDQNState sampleTransition)
        sampleTransition).targetNet ≠
      (DQNLearner.update syncLagConfig bumpGradStep [0, 1]
        (DQNLearner.update syncLagConfig bumpGradStep [] initialDQNState sampleTransition)
        sampleTransition).policyNet := by
  refine ⟨rfl, rfl, ?_⟩
  decide

/-! ## C5 and C10 — critical overrides in the decision hierarchy -/

/-- C5: whenever hunger exceeds 0.85, `decide_final_action` returns
"seek_food" immediately, for every decision mode and regardless of the
behaviour of the rest of the decision hierarchy (learner suggestion,
procedures, goals, memory, weather — all inside `cont`). -/
theorem decide_final_action_hunger_override (st : NeedsView) (decisionMode : String)
    (cont : String → String) (h : st.hunger > 85/100) :
    DecisionMaker.decide_final_action st decisionMode cont = "seek_food" := by
  simp only [DecisionMaker.decide_final_action, if_pos h]

/-- Witness for C5: the spec scenario hunger = 0.9, fatigue = 0.1,
thirst = 0.1 yields "seek_food" (here with a continuation that would
otherwise pick "explore"). -/
theorem decide_final_action_hunger_override_witness :
    (9/10 : ℚ) > 85/100 ∧
    DecisionMaker.decide_final_action
      { hunger := 9/10, thirst := 1/10, fatigue := 1/10 } "deliberative"
      (fun _ => "explore") = "seek_food" :=
  ⟨by norm_num,
   decide_final_action_hunger_override
     { hunger := 9/10, thirst := 1/10, fatigue := 1/10 } "deliberative"
     (fun _ => "explore") (by norm_num)⟩

/-- C10: the critical overrides are checked in the fixed order hunger,
thirst, fatigue, and the first match wins: hunger > 0.85 gives
"seek_food" whatever the other needs are; otherwise thirst > 0.85 gives
"drink_water" even when fatigue also exceeds 0.85; otherwise
fatigue > 0.85 gives "rest". -/
theorem decide_final_action_override_order (st : NeedsView) (decisionMode : String)
    (cont : String → String) :
    (st.hunger > 85/100 →
      DecisionMaker.decide_final_action st decisionMode cont = "seek_food") ∧
    (¬ st.hunger > 85/100 → st.thirst > 85/100 →
      DecisionMaker.decide_final_action st decisionMode cont = "drink_water") ∧
    (¬ st.hunger > 85/100 → ¬ st.thirst > 85/100 → st.fatigue > 85/100 →
      DecisionMaker.decide_final_action st decisionMode cont = "rest") := by
  refine ⟨fun h1 => ?_, fun h1 h2 => ?_, fun h1 h2 h3 => ?_⟩
  · simp only [DecisionMaker.decide_final_action, if_pos h1]
  · simp only [DecisionMaker.decide_final_action, if_neg h1, if_pos h2]
  · simp only [DecisionMaker.decide_final_action, if_neg h1, if_neg h2, if_pos h3]

/-- Witness for C10: with all three needs at 0.9, hunger wins; with
hunger at 0.5 and both thirst and fatigue at 0.9, thirst wins. -/
theorem decide_final_action_override_order_witness :
    DecisionMaker.decide_final_action
      { hunger := 9/10, thirst := 9/10, fatigue := 9/10 } "reactive"
      (fun _ => "explore") = "seek_food" ∧
    DecisionMaker.decide_final_action
      { hunger := 1/2, thirst := 9/10, fatigue := 9/10 } "reactive"
      (fun _ => "explore") = "drink_water" :=
  ⟨(decide_final_action_override_order
      { hunger := 9/10, thirst := 9/10, fatigue := 9/10 } "reactive"
      (fun _ => "explore")).1 (by norm_num),
   ((decide_final_action_override_order
      { hunger := 1/2, thirst := 9/10, fatigue := 9/10 } "reactive"
      (fun _ => "explore")).2.1 (by norm_num) (by norm_num))⟩

/-! ## C6 — decision mode requested by the Awake state -/

/-- C6 (amended): in the Awake state, `think` requests the decision mode
"deliberative" unconditionally (awake_state.py line 65 passes the literal)
— including when hunger, fatigue or thirst exceeds 0.8; no state of the
agent makes it request "reactive". -/
theorem awake_requested_mode_always_deliberative (a : AgentC) :
    AwakeState.requestedDecisionMode a = "deliberative" ∧
    AwakeState.requestedDecisionMode a ≠ "reactive" :=
  ⟨rfl, by simp [AwakeState.requestedDecisionMode]⟩

/-- C6 counterexample: an awake agent with hunger 0.9 (a need above 0.8,
where the claim predicts the "reactive" mode): the requested mode is
"deliberative", not "reactive". -/
theorem awake_requested_mode_counterexample :
    (9/10 : ℚ) > 8/10 ∧
    AwakeState.requestedDecisionMode
      { hunger := 9/10, fatigue := 1/10, thirst := 1/10, mode := CMode.awake,
        attentionFocus := none, hasUncompletedReachLocationGoal := true,
        lastActionReward := 0 } ≠ "reactive" := by
  refine ⟨by norm_num, ?_⟩
  simp [AwakeState.requestedDecisionMode]

/-! ## C7 — Asleep state entry, behaviour and exit -/

/-- C7 (amended): (a) whenever fatigue exceeds 0.9 and the agent is not
already Asleep, the next `think` transitions it to Asleep; (b) while
Asleep, `act` applies only a rest effect for every requested action
(fatigue minus 0.7 for "rest", minus 0.2 for anything else, floored at 0,
then the passive update adds 0.005 to fatigue and 0.01 to hunger with
clamping; thirst, mode and attention are untouched and no action-specific
effect runs) and fatigue strictly decreases from any level of at least
0.2; (c) an Asleep agent exits to Awake exactly when fatigue drops below
0.2, but it also exits Asleep — to Focused — when fatigue is still at
least 0.2 and hunger or thirst exceeds 0.8. -/
theorem asleep_state_machine (a : AgentC) (action : String) :
    (a.fatigue > 9/10 → a.mode ≠ CMode.asleep →
      (Agent.think_transition a).mode = CMode.asleep) ∧
    ((AsleepState.act a action).thirst = a.thirst ∧
     (AsleepState.act a action).mode = a.mode ∧
     (AsleepState.act a action).attentionFocus = a.attentionFocus ∧
     (AsleepState.act a action).hunger = clamp01 (a.hunger + 1/100) ∧
     (AsleepState.act a action).fatigue =
       clamp01 (max 0 (a.fatigue - (if action = "rest" then 7/10 else 2/10)) + 5/1000) ∧
     (2/10 ≤ a.fatigue → (AsleepState.act a action).fatigue < a.fatigue)) ∧
    (a.mode = CMode.asleep →
      Agent.think_transition a =
        (if a.fatigue < 2/10 then { a with mode := CMode.awake }
         else if a.hunger > 8/10 then
           { a with attentionFocus := some "food", mode := CMode.focused }
         else if a.thirst > 8/10 then
           { a with attentionFocus := some "water", mode := CMode.focused }
         else a)) := by
  refine ⟨?_, ⟨rfl, rfl, rfl, rfl, ?_, ?_⟩, ?_⟩
  · intro h1 h2
    simp only [Agent.think_transition, if_pos (And.intro h1 h2)]
  · simp only [AsleepState.act]
    split <;> rfl
  · intro hf
    simp only [AsleepState.act]
    have hbound : ∀ d : ℚ, 5/1000 < d →
        clamp01 (max 0 (a.fatigue - d) + 5/1000) < a.fatigue := by
      intro d hd1
      have hx0 : (0 : ℚ) ≤ max 0 (a.fatigue - d) + 5/1000 := by positivity
      refine lt_of_le_of_lt (clamp01_le_of_nonneg hx0) ?_
      rcases le_total (a.fatigue - d) 0 with h | h
      · rw [max_eq_left h]; linarith
      · rw [max_eq_right h]; linarith
    split
    · exact hbound (7/10) (by norm_num)
    · exact hbound (2/10) (by norm_num)
  · intro hm
    simp only [Agent.think_transition, hm]
    norm_num
    split_ifs <;> simp_all

/-- Witness for C7: an Awake agent at fatigue 0.95 (the spec scenario)
falls Asleep on the next `think`; an Asleep agent's "explore" request only
rests (fatigue drops from 0.5); and an Asleep agent at fatigue 0.5 with
hunger 0.9 transitions according to the amended exit rule (to Focused). -/
theorem asleep_state_machine_witness :
    (Agent.think_transition
      { hunger := 1/2, fatigue := 95/100, thirst := 1/10, mode := CMode.awake,
        attentionFocus := none, hasUncompletedReachLocationGoal := true,
        lastActionReward := 0 }).mode = CMode.asleep ∧
    (AsleepState.act
      { hunger := 9/10, fatigue := 1/2, thirst := 1/10, mode := CMode.asleep,
        attentionFocus := none, hasUncompletedReachLocationGoal := true,
        lastActionReward := 0 } "explore").fatigue < 1/2 ∧
    Agent.think_transition
      { hunger := 9/10, fatigue := 1/2, thirst := 1/10, mode := CMode.asleep,
        attentionFocus := none, hasUncompletedReachLocationGoal := true,
        lastActionReward := 0 } =
      { hunger := 9/10, fatigue := 1/2, thirst := 1/10, mode := CMode.focused,
        attentionFocus := some "food", hasUncompletedReachLocationGoal := true,
        lastActionReward := 0 } := by
  refine ⟨(asleep_state_machine _ "explore").1 (by norm_num) (by decide), ?_, ?_⟩
  · exact (asleep_state_machine
      { hunger := 9/10, fatigue := 1/2, thirst := 1/10, mode := CMode.asleep,
        attentionFocus := none, hasUncompletedReachLocationGoal := true,
        lastActionReward := 0 } "explore").2.1.2.2.2.2.2 (by norm_num)
  · have h := (asleep_state_machine
      { hunger := 9/10, fatigue := 1/2, thirst := 1/10, mode := CMode.asleep,
        attentionFocus := none, hasUncompletedReachLocationGoal := true,
        lastActionReward := 0 } "explore").2.2 rfl
    rw [h]
    norm_num

/-- C7 counterexample: an Asleep agent with fatigue 0.5 (not below 0.2)
and hunger 0.9 exits the Asleep state on the next `think` (it moves to
Focused), refuting "the agent exits Asleep only when fatigue < 0.2". -/
theorem asleep_exit_counterexample :
    ¬ ((1/2 : ℚ) < 2/10) ∧
    (Agent.think_transition
      { hunger := 9/10, fatigue := 1/2, thirst := 1/10, mode := CMode.asleep,
        attentionFocus := none, hasUncompletedReachLocationGoal := true,
        lastActionReward := 0 }).mode ≠ CMode.asleep := by
  refine ⟨by norm_num, ?_⟩
  have h : Agent.think_transition
      { hunger := 9/10, fatigue := 1/2, thirst := 1/10, mode := CMode.asleep,
        attentionFocus := none, hasUncompletedReachLocationGoal := true,
        lastActionReward := 0 } =
      { hunger := 9/10, fatigue := 1/2, thirst := 1/10, mode := CMode.focused,
        attentionFocus := some "food", hasUncompletedReachLocationGoal := true,
        lastActionReward := 0 } := by
    simp only [Agent.think_transition]
    norm_num
    exact fun hco => absurd hco (by decide)
  rw [h]
  simp

/-! ## C8 — InternalState.update and the mood strategy -/

/-- C8 (code evaluation): `InternalState.update` moves only the two
stored needs — hunger by 0.01 per time unit and fatigue by 0.005, clamped
to [0,1]; concretely, at the documented night scale 1.5 the state
(0.5, 0.5) becomes (0.515, 0.5075).  There is no thirst field to update
(the structure embeds exactly the fields src/core/state.py stores), while
`BasicMoodStrategy.calculate_mood` genuinely depends on its third, thirst,
argument — the argument state.py never supplies. -/
theorem internal_state_update_code_eval :
    (∀ (s : InternalState) (deltaTime : ℚ),
      InternalState.update s deltaTime =
        { hunger := clamp01 (s.hunger + 1/100 * deltaTime),
          fatigue := clamp01 (s.fatigue + 5/1000 * deltaTime) }) ∧
    InternalState.update { hunger := 1/2, fatigue := 1/2 } (3/2) =
      { hunger := 515/1000, fatigue := 5075/10000 } ∧
    BasicMoodStrategy.calculate_mood 0 0 0 ≠ BasicMoodStrategy.calculate_mood 0 0 1 := by
  refine ⟨fun s deltaTime => rfl, ?_, ?_⟩
  · simp only [InternalState.update, clamp01]
    norm_num
  · simp only [BasicMoodStrategy.calculate_mood]
    norm_num

/-! ## C3 — ReplayBuffer capacity, FIFO eviction, sampling -/

/-- A single push never leaves the deque longer than its capacity. -/
theorem ReplayBuffer.push_length_le {α : Type} (capacity : ℕ) (buffer : List α) (x : α) :
    (ReplayBuffer.push capacity buffer x).length ≤ capacity := by
  simp only [ReplayBuffer.push, List.length_drop, List.length_append, List.length_singleton]
  omega

/-- Any sequence of pushes from a buffer within capacity stays within
capacity. -/
theorem ReplayBuffer.foldl_push_length_le {α : Type} (capacity : ℕ) (ts : List α) :
    ∀ init : List α, init.length ≤ capacity →
      (ts.foldl (ReplayBuffer.push capacity) init).length ≤ capacity := by
  induction ts with
  | nil => intro init h; simpa using h
  | cons t ts ih =>
    intro init _
    rw [List.foldl_cons]
    exact ih _ (ReplayBuffer.push_length_le capacity init t)

/-- Reading a list at a list of in-range indices via `getElem?` is the
same as the proof-carrying `pmap` read. -/
theorem filterMap_getElem_eq_pmap {α : Type} (buf : List α) :
    ∀ (sel : List ℕ) (h : ∀ i ∈ sel, i < buf.length),
      sel.filterMap (fun i => buf[i]?) = sel.pmap (fun i hi => buf.get ⟨i, hi⟩) h := by
  intro sel
  induction sel with
  | nil => intro h; rfl
  | cons i sel ih =>
    intro h
    have hi : i < buf.length := h i (List.mem_cons_self i sel)
    rw [List.filterMap_cons, List.getElem?_eq_getElem hi, List.pmap]
    simp only [Option.toList]
    rw [ih (fun j hj => h j (List.mem_cons_of_mem i hj))]
    rfl

/-- `Subperm` is preserved by `map`. -/
theorem subperm_map_of_subperm {α β : Type} (f : α → β) {l₁ l₂ : List α}
    (h : l₁.Subperm l₂) : (l₁.map f).Subperm (l₂.map f) := by
  obtain ⟨l, hp, hs⟩ := h
  exact ⟨l.map f, hp.map f, hs.map f⟩

/-- Reading a buffer at duplicate-free in-range indices yields a
sub-permutation of the buffer: each stored element is drawn at most once
(sampling without replacement). -/
theorem sample_subperm_of_nodup {α : Type} (buf : List α) (sel : List ℕ)
    (hnd : sel.Nodup) (hb : ∀ i ∈ sel, i < buf.length) :
    (sel.filterMap (fun i => buf[i]?)).Subperm buf := by
  rw [filterMap_getElem_eq_pmap buf sel hb]
  have hrw : sel.pmap (fun i hi => buf.get ⟨i, hi⟩) hb =
      (sel.pmap (fun i (hi : i < buf.length) => (⟨i, hi⟩ : Fin buf.length)) hb).map buf.get := by
    rw [List.map_pmap]
  rw [hrw]
  have hnodup : (sel.pmap (fun i (hi : i < buf.length) =>
      (⟨i, hi⟩ : Fin buf.length)) hb).Nodup :=
    hnd.pmap (fun a _ b _ hab => congrArg Fin.val hab)
  have hsp : (sel.pmap (fun i (hi : i < buf.length) =>
      (⟨i, hi⟩ : Fin buf.length)) hb).Subperm (List.finRange buf.length) :=
    hnodup.subperm (fun x _ => List.mem_finRange x)
  have hmapped := subperm_map_of_subperm buf.get hsp
  rwa [List.finRange_map_get] at hmapped

/-- C3: (1) starting from the empty buffer of `__init__`, the length
after any sequence of pushes never exceeds the configured capacity;
(2) once the length equals a positive capacity, a further push evicts
exactly the oldest element, FIFO; (3) `sample` returns `[]` when the
buffer is shorter than the batch; (4) for any draw of `batch_size`
distinct in-range indices — the contract of `random.sample`, which picks
such an index set uniformly at random — the batch has exactly
`batch_size` elements and is a sub-permutation of the buffer (each stored
transition drawn at most once: without replacement within the batch). -/
theorem replay_buffer_capacity_fifo_sampling {α : Type} (capacity batchSize : ℕ)
    (ts buffer : List α) (x : α) (sel : List ℕ) :
    ((ts.foldl (ReplayBuffer.push capacity) []).length ≤ capacity) ∧
    (buffer.length = capacity → 0 < capacity →
      ReplayBuffer.push capacity buffer x = buffer.tail ++ [x]) ∧
    (buffer.length < batchSize → ReplayBuffer.sample buffer batchSize sel = []) ∧
    (¬ buffer.length < batchSize → sel.Nodup → (∀ i ∈ sel, i < buffer.length) →
      sel.length = batchSize →
      (ReplayBuffer.sample buffer batchSize sel).length = batchSize ∧
      (ReplayBuffer.sample buffer batchSize sel).Subperm buffer) := by
  refine ⟨ReplayBuffer.foldl_push_length_le capacity ts [] (by simp), ?_, ?_, ?_⟩
  · intro hlen hpos
    simp only [ReplayBuffer.push]
    rw [show (buffer ++ [x]).length - capacity = 1 by simp [hlen]]
    rw [List.drop_append_of_le_length (by omega), List.drop_one]
  · intro h
    simp [ReplayBuffer.sample, h]
  · intro h hnd hb hk
    simp only [ReplayBuffer.sample, if_neg h]
    constructor
    · rw [filterMap_getElem_eq_pmap buffer sel hb, List.length_pmap, hk]
    · exact sample_subperm_of_nodup buffer sel hnd hb

/-- Witness for C3 on a concrete run: capacity 2, pushes 1,2,3 keep
length 2; a full buffer [4,5] evicts 4 on pushing 6; sampling 3 from a
2-element buffer is empty; drawing indices [1,0] from [4,5] gives a
2-element batch that is a sub-permutation of the buffer. -/
theorem replay_buffer_capacity_fifo_sampling_witness :
    ((([1, 2, 3] : List ℕ).foldl (ReplayBuffer.push 2) []).length ≤ 2) ∧
    (ReplayBuffer.push 2 ([4, 5] : List ℕ) 6 = ([4, 5] : List ℕ).tail ++ [6]) ∧
    (ReplayBuffer.sample ([4, 5] : List ℕ) 3 [] = []) ∧
    ((ReplayBuffer.sample ([4, 5] : List ℕ) 2 [1, 0]).length = 2 ∧
      (ReplayBuffer.sample ([4, 5] : List ℕ) 2 [1, 0]).Subperm [4, 5]) :=
  ⟨(replay_buffer_capacity_fifo_sampling 2 2 [1, 2, 3] [4, 5] 6 [1, 0]).1,
   (replay_buffer_capacity_fifo_sampling 2 2 [1, 2, 3] [4, 5] 6 [1, 0]).2.1 rfl (by decide),
   (replay_buffer_capacity_fifo_sampling 2 3 [] [4, 5] 6 []).2.2.1 (by decide),
   (replay_buffer_capacity_fifo_sampling 2 2 [1, 2, 3] [4, 5] 6 [1, 0]).2.2.2
     (by decide) (by decide) (by decide) rfl⟩

/-! ## C9 — mutation discipline of ProceduralMemory -/

/-- Agreement of two procedure records on every field except
`last_triggered_step` and `suggested_action`. -/
def agreeCore (p q : Procedure) : Prop :=
  q.id = p.id ∧ q.name = p.name ∧ q.conditionType = p.conditionType ∧
  q.conditionThreshold = p.conditionThreshold ∧ q.actionSequence = p.actionSequence ∧
  q.priority = p.priority ∧ q.successCount = p.successCount ∧
  q.failureCount = p.failureCount ∧ q.conditionDescription = p.conditionDescription

/-- `agreeCore` is reflexive. -/
theorem agreeCore_refl (p : Procedure) : agreeCore p p :=
  ⟨rfl, rfl, rfl, rfl, rfl, rfl, rfl, rfl, rfl⟩

/-- Overwriting one position with an `agreeCore`-related record keeps the
whole list pointwise `agreeCore`-related. -/
theorem forall₂_agreeCore_set :
    ∀ (l : List Procedure) (j : ℕ) (p' : Procedure),
      (∀ q, l[j]? = some q → agreeCore q p') →
      List.Forall₂ agreeCore l (l.set j p') := by
  intro l
  induction l with
  | nil => intro j p' _; exact List.Forall₂.nil
  | cons a l ih =>
    intro j p' h
    cases j with
    | zero =>
      exact List.Forall₂.cons (h a (by simp))
        (List.forall₂_same.mpr (fun x _ => agreeCore_refl x))
    | succ j =>
      exact List.Forall₂.cons (agreeCore_refl a) (ih j p' (fun q hq => h q (by simpa using hq)))

/-- C9 (amended): `get_triggered_procedure` preserves, for every stored
procedure, every field except `last_triggered_step` and
`suggested_action` (which it does overwrite on the selected record); in
particular the stored `priority` and the outcome counters are never
touched by selection — the boosted priority is computed into a local.
`update_procedure_outcome` leaves `priority`, `last_triggered_step`,
`suggested_action` and every non-matching procedure unchanged, and
increments exactly the success (resp. failure) count of the procedure
with the given id. -/
theorem procedural_memory_mutation_frame (m : ProceduralMemory) (v : ProcView)
    (procId : String) (success : Bool) :
    List.Forall₂ agreeCore m.procedures (m.get_triggered_procedure v).2.procedures ∧
    List.Forall₂ (fun p q =>
        q.priority = p.priority ∧ q.lastTriggeredStep = p.lastTriggeredStep ∧
        q.suggestedAction = p.suggestedAction ∧
        (p.id ≠ procId → q = p) ∧
        (p.id = procId → success = true → q = { p with successCount := p.successCount + 1 }) ∧
        (p.id = procId → success = false → q = { p with failureCount := p.failureCount + 1 }))
      m.procedures (m.update_procedure_outcome procId success).procedures := by
  constructor
  · cases hb : ProceduralMemory.bestLoop v m.procedures 0 (-1) none with
    | none =>
      simp only [ProceduralMemory.get_triggered_procedure, hb]
      exact List.forall₂_same.mpr (fun x _ => agreeCore_refl x)
    | some j =>
      cases hpj : m.procedures[j]? with
      | none =>
        simp only [ProceduralMemory.get_triggered_procedure, hb, hpj]
        exact List.forall₂_same.mpr (fun x _ => agreeCore_refl x)
      | some p =>
        simp only [ProceduralMemory.get_triggered_procedure, hb, hpj]
        apply forall₂_agreeCore_set
        intro q hq
        rw [hpj] at hq
        cases hq
        exact ⟨rfl, rfl, rfl, rfl, rfl, rfl, rfl, rfl, rfl⟩
  · simp only [ProceduralMemory.update_procedure_outcome]
    rw [List.forall₂_map_right_iff]
    refine List.forall₂_same.mpr (fun p _ => ?_)
    by_cases hid : p.id = procId
    · rw [if_pos hid]
      cases success
      · rw [if_neg Bool.false_ne_true]
        exact ⟨rfl, rfl, rfl, fun hne => absurd hid hne,
          fun _ h => Bool.noConfusion h, fun _ _ => rfl⟩
      · rw [if_pos rfl]
        exact ⟨rfl, rfl, rfl, fun hne => absurd hid hne, fun _ _ => rfl,
          fun _ h => Bool.noConfusion h⟩
    · rw [if_neg hid]
      exact ⟨rfl, rfl, rfl, fun _ => rfl, fun h _ => absurd h hid, fun h _ => absurd h hid⟩

/-- The default procedure "Emergency Food Search" installed by
`Agent._initialize_procedures` (base_agent.py lines 296-302). -/
def exProcedure : Procedure :=
  { id := "proc_0", name := "Emergency Food Search", conditionType := "hunger_high",
    conditionThreshold := 7/10, actionSequence := ["seek_food"], priority := 8/10,
    lastTriggeredStep := -1, successCount := 0, failureCount := 0,
    conditionDescription := "When hunger is high", suggestedAction := none }

/-- A procedural memory holding just `exProcedure`. -/
def exMemory : ProceduralMemory :=
  { capacity := 10, procedures := [exProcedure], nextId := 1 }

/-- An agent view with hunger 0.8 (above the 0.7 trigger threshold) at
time step 5. -/
def exView : ProcView :=
  { hunger := 8/10, fatigue := 0, foodInSight := false, obstacleInSight := false,
    hasUncompletedReachLocationGoal := false, currentTimeStep := 5 }

/-- Witness for C9 at `exMemory`: selection keeps the stored record
`agreeCore`-related to its old value, and a successful outcome report
rewrites the store to exactly the success-incremented record. -/
theorem procedural_memory_mutation_frame_witness :
    List.Forall₂ agreeCore exMemory.procedures
      (exMemory.get_triggered_procedure exView).2.procedures ∧
    (exMemory.update_procedure_outcome "proc_0" true).procedures
      = [{ exProcedure with successCount := exProcedure.successCount + 1 }] := by
  refine ⟨(procedural_memory_mutation_frame exMemory exView "proc_0" true).1, ?_⟩
  simp [ProceduralMemory.update_procedure_outcome, exMemory, exProcedure]

/-- C9 counterexample: `get_triggered_procedure` is an operation other
than `update_procedure_outcome`, yet it changes the stored record: on
`exMemory` at `exView` the stored procedure's `last_triggered_step` goes
from -1 to 5 and its `suggested_action` is overwritten to "seek_food". -/
theorem procedural_memory_selection_mutates_counterexample :
    exMemory.procedures.map Procedure.lastTriggeredStep = [-1] ∧
    exMemory.procedures.map Procedure.suggestedAction = [none] ∧
    (exMemory.get_triggered_procedure exView).2.procedures.map Procedure.lastTriggeredStep
      = [5] ∧
    (exMemory.get_triggered_procedure exView).2.procedures.map Procedure.suggestedAction
      = [some "seek_food"] := by
  have hcond : Procedure.conditionMet exView exProcedure = true := by
    norm_num [Procedure.conditionMet, exProcedure, exView]
  have hdyn : Procedure.dynamicPriority exProcedure = 8/10 := by
    simp [Procedure.dynamicPriority, exProcedure]
  have hbest : ProceduralMemory.bestLoop exView exMemory.procedures 0 (-1) none = some 0 := by
    rw [show exMemory.procedures = [exProcedure] from rfl, ProceduralMemory.bestLoop,
      if_pos (by rw [hcond, hdyn]; norm_num), ProceduralMemory.bestLoop]
  have hget : exMemory.procedures[0]? = some exProcedure := by
    rw [show exMemory.procedures = [exProcedure] from rfl]
    rfl
  have hpair : (exMemory.get_triggered_procedure exView).2.procedures
      = [{ exProcedure with lastTriggeredStep := 5, suggestedAction := some "seek_food" }] := by
    rw [ProceduralMemory.get_triggered_procedure, hbest]
    dsimp only
    rw [hget]
    dsimp only
    simp [exMemory, exView, exProcedure]
  refine ⟨rfl, rfl, ?_, ?_⟩ <;> rw [hpair] <;> rfl
